import Mathlib

/-!
Shallow embedding of `babylon_3d/fortigate_api_integration.py`:
the `FortiGateAPIClient` response shaping (`get_system_status`) and the
`NetworkTopologyBuilder` (`build_topology`, `export_to_babylon_format`).

Network fetches are modelled by their already-parsed results: an
`Option` for a whole response that may fail (failure degrades to an
empty dict in the code) and plain lists for the list endpoints (every
failure path in the code degrades to `[]`, observationally identical to
an empty fetch).  JSON dictionary fields accessed with `.get(key, d)`
become `Option` fields read with `Option.getD`.
-/

/-- A JSON-ish value, used for the open string-keyed `metadata` maps. -/
inductive JVal where
  | str (s : String)
  | num (n : Nat)
  | obj (kvs : List (String × JVal))

/-- An open string-keyed map, as the Python dicts stored under `metadata`. -/
abbrev Metadata := List (String × JVal)

/-- A 3-D position `{x, y, z}`; coordinates are exact rationals (the code
uses Python floats only at integer and half-integer values). -/
structure Pos where
  x : ℚ
  y : ℚ
  z : ℚ
deriving DecidableEq

/-- The nested `results` object of the `/monitor/system/status` response. -/
structure StatusResults where
  hostname : Option String
  serial : Option String
  version : Option String
  model : Option String
  status : Option String
  cpu_usage : Option Nat
  mem_usage : Option Nat
  uptime : Option Nat

/-- The top level of the `/monitor/system/status` response. -/
structure StatusResp where
  serial : Option String
  version : Option String
  hostname : Option String
  status : Option String
  results : Option StatusResults

/-- The merged status dict built by `FortiGateAPIClient.get_system_status`
(or the empty dict on failure): each field is `none` when the key is absent. -/
structure StatusData where
  hostname : Option String
  serial : Option String
  version : Option String
  status : Option String
  model : Option String
  cpu_usage : Option Nat
  mem_usage : Option Nat
  uptime : Option Nat

/-- The empty Python dict `\x7b\x7d`, as returned on any failure path. -/
def StatusData.empty : StatusData :=
  ⟨none, none, none, none, none, none, none, none⟩

/-- The all-absent nested `results` object. -/
def StatusResults.empty : StatusResults :=
  ⟨none, none, none, none, none, none, none, none⟩

/-- Embedding of `FortiGateAPIClient.get_system_status`: on a 200 response, spread the
nested `results` object and then overwrite `serial`, `version`, `hostname`
and `status` with the documented fallback chains; on failure return the
empty dict. -/
def get_system_status : Option StatusResp → StatusData
  | none => StatusData.empty
  | some data =>
    let results := data.results.getD StatusResults.empty
    { hostname := some (results.hostname.getD (data.hostname.getD "FortiGate"))
      serial := some (data.serial.getD (results.serial.getD "Unknown"))
      version := some (data.version.getD (results.version.getD "Unknown"))
      status := some (data.status.getD "unknown")
      model := results.model
      cpu_usage := results.cpu_usage
      mem_usage := results.mem_usage
      uptime := results.uptime }

/-- A dict appearing in the `results` of `/cmdb/system/global`; only
`platform_str` is ever read. -/
structure InfoDict where
  platform_str : Option String

/-- The `results` of `/cmdb/system/global`: the code accepts either a
dict or a list of dicts. -/
inductive InfoResults where
  | dict (d : InfoDict)
  | list (l : List InfoDict)

/-- The top level of the `/cmdb/system/global` response. -/
structure InfoResp where
  results : Option InfoResults

/-- The `first_result` computation in `build_topology`: the `results` dict itself when it
is a dict, its first element when it is a non-empty list, else the empty
dict (also when `get_system_info` failed and returned the empty dict). -/
def first_result : Option InfoResp → InfoDict
  | none => ⟨none⟩
  | some info =>
    match info.results with
    | none => ⟨none⟩
    | some (InfoResults.dict d) => d
    | some (InfoResults.list []) => ⟨none⟩
    | some (InfoResults.list (d :: _)) => d

/-- An entry of the fetched interface list. -/
structure Iface where
  name : Option String
  status : Option String
  ip : Option String
  subnet : Option String
  macaddr : Option String
  mtu : Option Nat
  speed : Option Nat

/-- An entry of the fetched managed-switch list. -/
structure Switch where
  name : Option String
  model : Option String
  serial : Option String
  ip : Option String
  status : Option String
  num_ports : Option Nat
  sw_version : Option String

/-- A radio dict of an access point; only `max_bandwidth` is ever read. -/
structure Radio where
  max_bandwidth : Option Nat

/-- An entry of the fetched managed-AP list. -/
structure AP where
  name : Option String
  model : Option String
  serial : Option String
  ip : Option String
  status : Option String
  wifi_clients : Option Nat
  radio_1 : Option Radio
  radio_2 : Option Radio

/-- An entry of the fetched user-device (endpoint) list. -/
structure UserDevice where
  mac : Option String
  hostname : Option String
  ip : Option String
  os_type : Option String
  user : Option String
  last_seen : Option String
  devtype : Option String

/-- All the fetch results `build_topology` consumes, one field per
`FortiGateAPIClient` call it makes.  `none` models a failed whole-dict
fetch; every list-endpoint failure degrades to `[]` in the code, so the
empty list models it exactly. -/
structure ClientData where
  system_status : Option StatusResp
  system_info : Option InfoResp
  interfac_list : List Iface
  switches : List Switch
  access_points : List AP
  user_devices : List UserDevice

/-- A device dict of the topology.  Keys absent from a given device kind
(e.g. `model` on an interface device) are `none`. -/
structure Device where
  id : String
  name : String
  type : String
  model : Option String
  serial : Option String
  version : Option String
  ip : Option String
  subnet : Option String
  mac : Option String
  connected_to : Option String
  position : Pos
  metadata : Metadata

/-- A connection dict of the topology. -/
structure Connection where
  source : String
  target : String
  type : String
  bandwidth : Nat
deriving DecidableEq

/-- The per-type counts written into `metadata.device_counts`. -/
structure DeviceCounts where
  firewall : Nat
  switch : Nat
  access_point : Nat
  endpoint : Nat
  interfac : Nat

/-- The topology `metadata` dict after a build. -/
structure TopoMetadata where
  last_updated : String
  fortigate_info : Device
  device_counts : DeviceCounts

/-- The topology built by `NetworkTopologyBuilder.build_topology`. -/
structure Topology where
  devices : List Device
  connections : List Connection
  metadata : TopoMetadata

/-- Python `s.replace(a, b)` for one-character `a`, `b`: replace every
occurrence of the character `a` in `s` by `b`. -/
def replaceChar (a b : Char) (s : String) : String :=
  ⟨s.data.map (fun ch => if ch = a then b else ch)⟩

/-- The central FortiGate device appended first (step 1 of
`build_topology`), from the merged system status and `first_result`. -/
def fortigateDevice (host : String) (st : StatusData) (fr : InfoDict) : Device :=
  { id := "fortigate_main"
    name := st.hostname.getD "FortiGate"
    type := "firewall"
    model := some (st.model.getD (fr.platform_str.getD "Unknown"))
    serial := some (st.serial.getD "Unknown")
    version := some (st.version.getD "Unknown")
    ip := some host
    subnet := none
    mac := none
    connected_to := none
    position := ⟨0, 0, 0⟩
    metadata := [("status", JVal.str (st.status.getD "unknown")),
                 ("cpu_usage", JVal.num (st.cpu_usage.getD 0)),
                 ("memory_usage", JVal.num (st.mem_usage.getD 0)),
                 ("uptime", JVal.num (st.uptime.getD 0))] }

/-- The device built from an interface entry whose status is `"up"`. -/
def interfaceDevice (iface : Iface) : Device :=
  { id := "interface_" ++ iface.name.getD "unknown"
    name := iface.name.getD "Unknown Interface"
    type := "interface"
    model := none
    serial := none
    version := none
    ip := some (iface.ip.getD "")
    subnet := some (iface.subnet.getD "")
    mac := none
    connected_to := some "fortigate_main"
    position := ⟨2, 0, 0⟩
    metadata := [("mac", JVal.str (iface.macaddr.getD "")),
                 ("mtu", JVal.num (iface.mtu.getD 1500)),
                 ("speed", JVal.num (iface.speed.getD 0))] }

/-- The interface entries kept: `iface.get('status') == 'up'`. -/
def upInterfaces (l : List Iface) : List Iface :=
  l.filter (fun i => i.status == some "up")

/-- Devices contributed by the interface step. -/
def interfaceDevices (l : List Iface) : List Device :=
  (upInterfaces l).map interfaceDevice

/-- Connections contributed by the interface step. -/
def interfaceConnections (l : List Iface) : List Connection :=
  (upInterfaces l).map (fun i =>
    ⟨"fortigate_main", (interfaceDevice i).id, "network", i.speed.getD 0⟩)

/-- The device built for the `i`-th kept switch entry. -/
def switchDevice (i : Nat) (sw : Switch) : Device :=
  { id := "switch_" ++ sw.name.getD ("switch_" ++ toString i)
    name := sw.name.getD ("Switch " ++ toString i)
    type := "switch"
    model := some (sw.model.getD "Unknown")
    serial := some (sw.serial.getD "Unknown")
    version := none
    ip := some (sw.ip.getD "")
    subnet := none
    mac := none
    connected_to := some "fortigate_main"
    position := ⟨-3, 0, (i : ℚ) * 2⟩
    metadata := [("status", JVal.str (sw.status.getD "unknown")),
                 ("ports", JVal.num (sw.num_ports.getD 0)),
                 ("firmware", JVal.str (sw.sw_version.getD "Unknown"))] }

/-- Devices contributed by the switch step: first 10 entries only. -/
def switchDevices (l : List Switch) : List Device :=
  ((l.take 10).enum).map (fun p => switchDevice p.1 p.2)

/-- Connections contributed by the switch step. -/
def switchConnections (l : List Switch) : List Connection :=
  ((l.take 10).enum).map (fun p =>
    ⟨"fortigate_main", (switchDevice p.1 p.2).id, "network", 1000⟩)

/-- The radio dict as stored verbatim into the AP metadata. -/
def radioJVal : Option Radio → JVal
  | none => JVal.obj []
  | some r =>
    match r.max_bandwidth with
    | none => JVal.obj []
    | some n => JVal.obj [("max_bandwidth", JVal.num n)]

/-- The device built for the `i`-th kept access-point entry. -/
def apDevice (i : Nat) (ap : AP) : Device :=
  { id := "ap_" ++ ap.name.getD ("ap_" ++ toString i)
    name := ap.name.getD ("AP " ++ toString i)
    type := "access_point"
    model := some (ap.model.getD "Unknown")
    serial := some (ap.serial.getD "Unknown")
    version := none
    ip := some (ap.ip.getD "")
    subnet := none
    mac := none
    connected_to := some "fortigate_main"
    position := ⟨3, 0, ((i : ℚ) * 3) / 2⟩
    metadata := [("status", JVal.str (ap.status.getD "unknown")),
                 ("wifi_clients", JVal.num (ap.wifi_clients.getD 0)),
                 ("radio_1", radioJVal ap.radio_1),
                 ("radio_2", radioJVal ap.radio_2)] }

/-- Devices contributed by the access-point step: first 20 entries only. -/
def apDevices (l : List AP) : List Device :=
  ((l.take 20).enum).map (fun p => apDevice p.1 p.2)

/-- Connections contributed by the access-point step; bandwidth is
`ap.get('radio_1', \x7b\x7d).get('max_bandwidth', 0)`. -/
def apConnections (l : List AP) : List Connection :=
  ((l.take 20).enum).map (fun p =>
    ⟨"fortigate_main", (apDevice p.1 p.2).id, "wifi",
      ((p.2.radio_1.getD ⟨none⟩).max_bandwidth).getD 0⟩)

/-- The device built for the `i`-th kept user-device (endpoint) entry. -/
def endpointDevice (i : Nat) (dev : UserDevice) : Device :=
  { id := "device_" ++ replaceChar ':' '_' (dev.mac.getD ("device_" ++ toString i))
    name := dev.hostname.getD ("Device " ++ toString i)
    type := "endpoint"
    model := none
    serial := none
    version := none
    ip := some (dev.ip.getD "")
    subnet := none
    mac := some (dev.mac.getD "")
    connected_to := some "fortigate_main"
    position := ⟨5, 0, (i : ℚ) / 2⟩
    metadata := [("os", JVal.str (dev.os_type.getD "Unknown")),
                 ("user", JVal.str (dev.user.getD "Unknown")),
                 ("last_seen", JVal.str (dev.last_seen.getD "")),
                 ("device_type", JVal.str (dev.devtype.getD "Unknown"))] }

/-- Devices contributed by the user-device step: first 50 entries only. -/
def endpointDevices (l : List UserDevice) : List Device :=
  ((l.take 50).enum).map (fun p => endpointDevice p.1 p.2)

/-- Connections contributed by the user-device step. -/
def endpointConnections (l : List UserDevice) : List Connection :=
  ((l.take 50).enum).map (fun p =>
    ⟨"fortigate_main", (endpointDevice p.1 p.2).id, "endpoint", 100⟩)

/-- The `metadata.device_counts` dict: raw fetched lengths for switches, APs and
endpoints, post-filter count for interfaces. -/
def device_counts (c : ClientData) : DeviceCounts :=
  ⟨1, c.switches.length, c.access_points.length, c.user_devices.length,
    (upInterfaces c.interfac_list).length⟩

/-- Embedding of `NetworkTopologyBuilder.build_topology`, as a pure function of the
fetch results, the client host and the `last_updated` timestamp. -/
def build_topology (host now : String) (c : ClientData) : Topology :=
  let root := fortigateDevice host (get_system_status c.system_status)
      (first_result c.system_info)
  { devices := root ::
      (interfaceDevices c.interfac_list ++ switchDevices c.switches ++
        apDevices c.access_points ++ endpointDevices c.user_devices)
    connections :=
      interfaceConnections c.interfac_list ++ switchConnections c.switches ++
        apConnections c.access_points ++ endpointConnections c.user_devices
    metadata := ⟨now, root, device_counts c⟩ }

/-- A model entry of the Babylon export. -/
structure VizModel where
  name : String
  displayName : String
  category : String
  position : Pos
  tags : List String
  metadata : Metadata
  properties_ip : String
  properties_model : String
  properties_serial : String

/-- The Babylon.js export document. -/
structure BabylonData where
  version : String
  models : List VizModel
  connections : List Connection
  metadata : TopoMetadata

/-- Embedding of `NetworkTopologyBuilder.export_to_babylon_format`. -/
def export_to_babylon_format (t : Topology) : BabylonData :=
  { version := "2.0"
    models := t.devices.map (fun d =>
      { name := d.id
        displayName := d.name
        category := d.type
        position := d.position
        tags := [d.type]
        metadata := d.metadata
        properties_ip := d.ip.getD ""
        properties_model := d.model.getD ""
        properties_serial := d.serial.getD "" })
    connections := t.connections.map (fun cn =>
      ⟨cn.source, cn.target, cn.type, cn.bandwidth⟩)
    metadata := t.metadata }

/-! ### Shared helper lemmas -/

/-- Appending strings appends their character data. -/
theorem string_data_append (s t : String) : (s ++ t).data = s.data ++ t.data := by
  cases s; cases t; rfl

/-- A filter whose predicate rejects every image of `f` empties a mapped list. -/
theorem filter_map_eq_nil {α β : Type} (f : α → β) (p : β → Bool)
    (h : ∀ x, p (f x) = false) (l : List α) : (l.map f).filter p = [] := by
  induction l with
  | nil => rfl
  | cons a as ih => simp [h, ih]

/-- A filter whose predicate accepts every image of `f` keeps a mapped list. -/
theorem filter_map_eq_self {α β : Type} (f : α → β) (p : β → Bool)
    (h : ∀ x, p (f x) = true) (l : List α) : (l.map f).filter p = l.map f := by
  induction l with
  | nil => rfl
  | cons a as ih => simp [h, ih]

/-! ### Claim theorems -/

/-- C10: the topology always satisfies
`len(connections) = len(devices) - 1`: the root contributes no
connection and every other appended device contributes exactly one. -/
theorem devices_length_eq_connections_length_succ (host now : String) (c : ClientData) :
    (build_topology host now c).devices.length =
      (build_topology host now c).connections.length + 1 := by
  simp [build_topology, interfaceDevices, interfaceConnections, switchDevices,
    switchConnections, apDevices, apConnections, endpointDevices, endpointConnections]

/-- C3: when every fetch other than `get_system_status` yields an empty
result, the built topology has exactly the root device and no connections. -/
theorem degraded_build_root_only (s : Option StatusResp) (host now : String) :
    (build_topology host now ⟨s, none, [], [], [], []⟩).devices =
      [fortigateDevice host (get_system_status s) ⟨none⟩] ∧
    (build_topology host now ⟨s, none, [], [], [], []⟩).connections = [] :=
  ⟨rfl, rfl⟩

/-- C8: the Babylon export is a pure 1:1 re-projection: as many models as
devices, the connections copied verbatim, and each device mapped to the
documented model shape. -/
theorem export_is_one_to_one (t : Topology) :
    (export_to_babylon_format t).models.length = t.devices.length ∧
    (export_to_babylon_format t).connections.length = t.connections.length ∧
    (export_to_babylon_format t).connections = t.connections ∧
    (export_to_babylon_format t).models = t.devices.map (fun d =>
      { name := d.id
        displayName := d.name
        category := d.type
        position := d.position
        tags := [d.type]
        metadata := d.metadata
        properties_ip := d.ip.getD ""
        properties_model := d.model.getD ""
        properties_serial := d.serial.getD "" }) := by
  refine ⟨by simp [export_to_babylon_format], by simp [export_to_babylon_format], ?_, rfl⟩
  show t.connections.map (fun cn => (⟨cn.source, cn.target, cn.type, cn.bandwidth⟩ : Connection)) = t.connections
  simp

/-- C2: at most 10 switch devices ever enter the device list, while
`device_counts` reports the raw fetched lengths for switches, APs and
endpoints and the post-filter count for interfaces. -/
theorem switch_cap_and_raw_counts (host now : String) (c : ClientData) :
    ((build_topology host now c).devices.filter (fun d => d.type == "switch")).length ≤ 10 ∧
    (build_topology host now c).metadata.device_counts.switch = c.switches.length ∧
    (build_topology host now c).metadata.device_counts.access_point = c.access_points.length ∧
    (build_topology host now c).metadata.device_counts.endpoint = c.user_devices.length ∧
    (build_topology host now c).metadata.device_counts.interfac =
      (c.interfac_list.filter (fun i => i.status == some "up")).length := by
  refine ⟨?_, rfl, rfl, rfl, rfl⟩
  have h1 := filter_map_eq_nil interfaceDevice (fun d => d.type == "switch")
    (fun x => by simp [interfaceDevice]) (upInterfaces c.interfac_list)
  have h2 := filter_map_eq_self (fun p : Nat × Switch => switchDevice p.1 p.2)
    (fun d => d.type == "switch") (fun x => by simp [switchDevice]) ((c.switches.take 10).enum)
  have h3 := filter_map_eq_nil (fun p : Nat × AP => apDevice p.1 p.2)
    (fun d => d.type == "switch") (fun x => by simp [apDevice]) ((c.access_points.take 20).enum)
  have h4 := filter_map_eq_nil (fun p : Nat × UserDevice => endpointDevice p.1 p.2)
    (fun d => d.type == "switch") (fun x => by simp [endpointDevice]) ((c.user_devices.take 50).enum)
  simp only [build_topology, interfaceDevices, switchDevices, apDevices, endpointDevices,
    List.filter_cons, List.filter_append, fortigateDevice, h1, h2, h3, h4]
  simp [List.enum_length]

/-- C6: an interface entry yields a device exactly when its `status` is
the string `"up"` (case-sensitive exact match): the interface-typed
devices of the build are precisely the mapped filtered entries. -/
theorem interface_inclusion_case_sensitive (host now : String) (c : ClientData) :
    (build_topology host now c).devices.filter (fun d => d.type == "interface") =
      (c.interfac_list.filter (fun i => i.status == some "up")).map interfaceDevice := by
  have h1 := filter_map_eq_self interfaceDevice (fun d => d.type == "interface")
    (fun x => by simp [interfaceDevice]) (upInterfaces c.interfac_list)
  have h2 := filter_map_eq_nil (fun p : Nat × Switch => switchDevice p.1 p.2)
    (fun d => d.type == "interface") (fun x => by simp [switchDevice]) ((c.switches.take 10).enum)
  have h3 := filter_map_eq_nil (fun p : Nat × AP => apDevice p.1 p.2)
    (fun d => d.type == "interface") (fun x => by simp [apDevice]) ((c.access_points.take 20).enum)
  have h4 := filter_map_eq_nil (fun p : Nat × UserDevice => endpointDevice p.1 p.2)
    (fun d => d.type == "interface") (fun x => by simp [endpointDevice]) ((c.user_devices.take 50).enum)
  simp only [build_topology, interfaceDevices, switchDevices, apDevices, endpointDevices,
    upInterfaces, List.filter_cons, List.filter_append, fortigateDevice, h1, h2, h3, h4]
  simp [upInterfaces]
  intro a x _ _ hx
  subst hx
  rfl

/-- A status response whose top level and nested `results` disagree on
the hostname; it exhibits that the code prefers the nested value. -/
def hostnameClashResp : StatusResp :=
  { serial := none
    version := none
    hostname := some "TopName"
    status := none
    results := some
      { hostname := some "ResName"
        serial := none
        version := none
        model := none
        status := none
        cpu_usage := none
        mem_usage := none
        uptime := none } }

/-- C4 counterexample: with hostname `"TopName"` at top level and
`"ResName"` inside `results`, the root device's name is `"ResName"` —
the code prefers the nested `results` hostname, contradicting the
claimed top-level-first fallback order. -/
theorem root_fields_counterexample :
    (build_topology "192.0.2.1" "t"
        ⟨some hostnameClashResp, none, [], [], [], []⟩).metadata.fortigate_info.name =
      "ResName" ∧ ("ResName" : String) ≠ "TopName" :=
  ⟨rfl, by decide⟩

/-- C4 amended: the actual fallback chains of the root device fields.
Serial and version prefer the top level, then `results`, then
`"Unknown"`; hostname prefers `results`, then the top level, then
`"FortiGate"`; status reads only the top level with default
`"unknown"`; model reads `results`, then `system_info`'s
`platform_str`, then `"Unknown"`. -/
theorem root_fields_fallback_chains (resp : StatusResp) (info : Option InfoResp)
    (ifs : List Iface) (sws : List Switch) (aps : List AP) (uds : List UserDevice)
    (host now : String) :
    ((build_topology host now ⟨some resp, info, ifs, sws, aps, uds⟩).metadata.fortigate_info.name =
      (resp.results.getD StatusResults.empty).hostname.getD (resp.hostname.getD "FortiGate")) ∧
    ((build_topology host now ⟨some resp, info, ifs, sws, aps, uds⟩).metadata.fortigate_info.serial =
      some (resp.serial.getD ((resp.results.getD StatusResults.empty).serial.getD "Unknown"))) ∧
    ((build_topology host now ⟨some resp, info, ifs, sws, aps, uds⟩).metadata.fortigate_info.version =
      some (resp.version.getD ((resp.results.getD StatusResults.empty).version.getD "Unknown"))) ∧
    ((build_topology host now ⟨some resp, info, ifs, sws, aps, uds⟩).metadata.fortigate_info.model =
      some ((resp.results.getD StatusResults.empty).model.getD
        ((first_result info).platform_str.getD "Unknown"))) ∧
    ((build_topology host now ⟨some resp, info, ifs, sws, aps, uds⟩).metadata.fortigate_info.metadata.lookup "status" =
      some (JVal.str (resp.status.getD "unknown"))) :=
  ⟨rfl, rfl, rfl, rfl, rfl⟩

/-- C7: an endpoint record carrying a MAC gets id `"device_"` followed
by the MAC with every colon replaced by an underscore; in particular MAC
`"aa:bb:cc:dd:ee:ff"` yields `"device_aa_bb_cc_dd_ee_ff"`. -/
theorem endpoint_id_from_mac (i : Nat) (dev : UserDevice) (m : String)
    (h : dev.mac = some m) :
    (endpointDevice i dev).id = "device_" ++ replaceChar ':' '_' m ∧
    (m = "aa:bb:cc:dd:ee:ff" →
      (endpointDevice i dev).id = "device_aa_bb_cc_dd_ee_ff") := by
  constructor
  · simp [endpointDevice, h]
  · intro hm
    subst hm
    simp only [endpointDevice, h, Option.getD_some]
    decide

/-- A concrete endpoint record with the MAC of the C7 claim. -/
def macOnlyDevice : UserDevice :=
  ⟨some "aa:bb:cc:dd:ee:ff", none, none, none, none, none, none⟩

/-- C7 witness at a concrete endpoint record. -/
theorem endpoint_id_from_mac_witness :
    macOnlyDevice.mac = some "aa:bb:cc:dd:ee:ff" ∧
    (endpointDevice 0 macOnlyDevice).id = "device_aa_bb_cc_dd_ee_ff" :=
  ⟨rfl, (endpoint_id_from_mac 0 macOnlyDevice "aa:bb:cc:dd:ee:ff" rfl).2 rfl⟩

/-- C9: switch connections carry bandwidth 1000 and every
`"endpoint"`-typed connection carries bandwidth 100, whatever the
fetched records contain. -/
theorem hardcoded_bandwidths (host now : String) (c : ClientData) (cn : Connection) :
    (cn ∈ switchConnections c.switches → cn.bandwidth = 1000) ∧
    (cn ∈ (build_topology host now c).connections → cn.type = "endpoint" →
      cn.bandwidth = 100) := by
  constructor
  · intro h
    simp only [switchConnections, List.mem_map] at h
    obtain ⟨p, -, rfl⟩ := h
    rfl
  · intro h ht
    simp only [build_topology, List.mem_append, interfaceConnections,
      switchConnections, apConnections, endpointConnections, List.mem_map] at h
    rcases h with ((⟨i, -, rfl⟩ | ⟨p, -, rfl⟩) | ⟨p, -, rfl⟩) | ⟨p, -, rfl⟩
    · simp at ht
    · simp at ht
    · simp at ht
    · rfl

/-- The fetch results used to witness C9: one switch and one endpoint. -/
def oneSwitchOneEndpoint : ClientData :=
  ⟨none, none, [], [⟨some "A", none, none, none, none, none, none⟩], [],
    [⟨some "aa:bb", none, none, none, none, none, none⟩]⟩

/-- C9 witness at concrete connections of `oneSwitchOneEndpoint`. -/
theorem hardcoded_bandwidths_witness :
    (Connection.mk "fortigate_main" "switch_A" "network" 1000).bandwidth = 1000 ∧
    (Connection.mk "fortigate_main" "device_aa_bb" "endpoint" 100).bandwidth = 100 :=
  ⟨(hardcoded_bandwidths "h" "t" oneSwitchOneEndpoint
      (Connection.mk "fortigate_main" "switch_A" "network" 1000)).1 (by decide),
   (hardcoded_bandwidths "h" "t" oneSwitchOneEndpoint
      (Connection.mk "fortigate_main" "device_aa_bb" "endpoint" 100)).2 (by decide) rfl⟩

/-- C1: every connection of a built topology references device ids
present in the device list: the source is always the root id
`"fortigate_main"` and the target is the id of the device appended with
the connection. -/
theorem connection_endpoints_in_devices (host now : String) (c : ClientData)
    (cn : Connection) (h : cn ∈ (build_topology host now c).connections) :
    cn.source = "fortigate_main" ∧
    cn.source ∈ (build_topology host now c).devices.map (fun d => d.id) ∧
    cn.target ∈ (build_topology host now c).devices.map (fun d => d.id) := by
  have hroot : "fortigate_main" ∈ (build_topology host now c).devices.map (fun d => d.id) := by
    simp only [build_topology, List.map_cons]
    exact List.mem_cons_self _ _
  simp only [build_topology, List.mem_append, interfaceConnections, switchConnections,
    apConnections, endpointConnections, List.mem_map] at h
  rcases h with ((⟨i, hi, rfl⟩ | ⟨p, hp, rfl⟩) | ⟨p, hp, rfl⟩) | ⟨p, hp, rfl⟩
  · refine ⟨rfl, hroot, ?_⟩
    have hd : interfaceDevice i ∈ (build_topology host now c).devices := by
      simp only [build_topology, interfaceDevices]
      exact List.mem_cons_of_mem _ (List.mem_append_left _ (List.mem_append_left _
        (List.mem_append_left _ (List.mem_map_of_mem _ hi))))
    exact List.mem_map_of_mem _ hd
  · refine ⟨rfl, hroot, ?_⟩
    have hd : switchDevice p.1 p.2 ∈ (build_topology host now c).devices := by
      simp only [build_topology, switchDevices]
      exact List.mem_cons_of_mem _ (List.mem_append_left _ (List.mem_append_left _
        (List.mem_append_right _ (List.mem_map_of_mem _ hp))))
    exact List.mem_map_of_mem _ hd
  · refine ⟨rfl, hroot, ?_⟩
    have hd : apDevice p.1 p.2 ∈ (build_topology host now c).devices := by
      simp only [build_topology, apDevices]
      exact List.mem_cons_of_mem _ (List.mem_append_left _
        (List.mem_append_right _ (List.mem_map_of_mem _ hp)))
    exact List.mem_map_of_mem _ hd
  · refine ⟨rfl, hroot, ?_⟩
    have hd : endpointDevice p.1 p.2 ∈ (build_topology host now c).devices := by
      simp only [build_topology, endpointDevices]
      exact List.mem_cons_of_mem _ (List.mem_append_right _ (List.mem_map_of_mem _ hp))
    exact List.mem_map_of_mem _ hd

/-- The fetch results used to witness C1: one interface with status up. -/
def oneUpInterface : ClientData :=
  ⟨none, none, [⟨some "wan1", some "up", none, none, none, none, some 1000⟩],
    [], [], []⟩

/-- C1 witness at the concrete connection of `oneUpInterface`. -/
theorem connection_endpoints_in_devices_witness :
    (Connection.mk "fortigate_main" "interface_wan1" "network" 1000) ∈
      (build_topology "h" "t" oneUpInterface).connections ∧
    ((Connection.mk "fortigate_main" "interface_wan1" "network" 1000).source =
      "fortigate_main" ∧
     (Connection.mk "fortigate_main" "interface_wan1" "network" 1000).source ∈
      (build_topology "h" "t" oneUpInterface).devices.map (fun d => d.id) ∧
     (Connection.mk "fortigate_main" "interface_wan1" "network" 1000).target ∈
      (build_topology "h" "t" oneUpInterface).devices.map (fun d => d.id)) :=
  ⟨by decide, connection_endpoints_in_devices "h" "t" oneUpInterface _ (by decide)⟩

/-- Two fetched switches sharing the name `"A"`. -/
def duplicateNameSwitches : ClientData :=
  ⟨none, none, [],
    [⟨some "A", none, none, none, none, none, none⟩,
     ⟨some "A", none, none, none, none, none, none⟩], [], []⟩

/-- C5 counterexample: when two fetched switches share a name, the
device id `"switch_A"` appears twice, so ids are not unique. -/
theorem device_ids_unique_counterexample :
    ¬ ((build_topology "h" "t" duplicateNameSwitches).devices.map
        (fun d => d.id)).Nodup := by decide

/-- The first character of a string; it discriminates the id families
(`interface_`, `switch_`, `ap_`, `device_`, `fortigate_main`). -/
def headChar (s : String) : Option Char := s.data.head?

/-- The head character of an appended string is that of its first part. -/
theorem headChar_append (s t : String) (ch : Char) (h : s.data.head? = some ch) :
    headChar (s ++ t) = some ch := by
  unfold headChar
  rw [string_data_append]
  cases hs : s.data with
  | nil => rw [hs] at h; cases h
  | cons a tl =>
    rw [hs] at h
    simp at h
    simp [h]

/-- Interface-device ids all start with `i`. -/
theorem headChar_interface_ids (l : List Iface) (s : String)
    (h : s ∈ (interfaceDevices l).map (fun d => d.id)) : headChar s = some 'i' := by
  simp only [interfaceDevices, List.map_map, List.mem_map] at h
  obtain ⟨i, -, rfl⟩ := h
  exact headChar_append "interface_" _ _ rfl

/-- Switch-device ids all start with `s`. -/
theorem headChar_switch_ids (l : List Switch) (s : String)
    (h : s ∈ (switchDevices l).map (fun d => d.id)) : headChar s = some 's' := by
  simp only [switchDevices, List.map_map, List.mem_map] at h
  obtain ⟨p, -, rfl⟩ := h
  exact headChar_append "switch_" _ _ rfl

/-- Access-point-device ids all start with `a`. -/
theorem headChar_ap_ids (l : List AP) (s : String)
    (h : s ∈ (apDevices l).map (fun d => d.id)) : headChar s = some 'a' := by
  simp only [apDevices, List.map_map, List.mem_map] at h
  obtain ⟨p, -, rfl⟩ := h
  exact headChar_append "ap_" _ _ rfl

/-- Endpoint-device ids all start with `d`. -/
theorem headChar_endpoint_ids (l : List UserDevice) (s : String)
    (h : s ∈ (endpointDevices l).map (fun d => d.id)) : headChar s = some 'd' := by
  simp only [endpointDevices, List.map_map, List.mem_map] at h
  obtain ⟨p, -, rfl⟩ := h
  exact headChar_append "device_" _ _ rfl

/-- Lists of strings whose head characters differ are disjoint. -/
theorem disjoint_of_headChar (l₁ l₂ : List String) (c₁ c₂ : Char) (hne : c₁ ≠ c₂)
    (h₁ : ∀ s ∈ l₁, headChar s = some c₁) (h₂ : ∀ s ∈ l₂, headChar s = some c₂) :
    l₁.Disjoint l₂ := by
  intro x hx₁ hx₂
  exact hne (Option.some_injective _ ((h₁ x hx₁).symm.trans (h₂ x hx₂)))

/-- C5 amended: device ids are unique provided each family of derived
ids is duplicate-free (in particular no two kept switches, APs or up
interfaces share a name and no two kept endpoints share a MAC); the
distinct family prefixes and the root id can never collide across
families.  Without the per-family hypotheses uniqueness fails (see the
counterexample with two switches named `"A"`). -/
theorem device_ids_unique_of_family_unique (host now : String) (c : ClientData)
    (hI : ((interfaceDevices c.interfac_list).map (fun d => d.id)).Nodup)
    (hS : ((switchDevices c.switches).map (fun d => d.id)).Nodup)
    (hA : ((apDevices c.access_points).map (fun d => d.id)).Nodup)
    (hE : ((endpointDevices c.user_devices).map (fun d => d.id)).Nodup) :
    ((build_topology host now c).devices.map (fun d => d.id)).Nodup := by
  have hLI := headChar_interface_ids c.interfac_list
  have hLS := headChar_switch_ids c.switches
  have hLA := headChar_ap_ids c.access_points
  have hLE := headChar_endpoint_ids c.user_devices
  simp only [build_topology, List.map_cons, List.map_append]
  rw [List.nodup_cons]
  constructor
  · intro hmem
    have hf : headChar ((fortigateDevice host (get_system_status c.system_status)
        (first_result c.system_info)).id) = some 'f' := rfl
    rcases List.mem_append.mp hmem with hm | hm
    · rcases List.mem_append.mp hm with hm | hm
      · rcases List.mem_append.mp hm with hm | hm
        · exact absurd (hf.symm.trans (hLI _ hm)) (by decide)
        · exact absurd (hf.symm.trans (hLS _ hm)) (by decide)
      · exact absurd (hf.symm.trans (hLA _ hm)) (by decide)
    · exact absurd (hf.symm.trans (hLE _ hm)) (by decide)
  · refine List.Nodup.append (List.Nodup.append (List.Nodup.append hI hS ?_) hA ?_) hE ?_
    · exact disjoint_of_headChar _ _ 'i' 's' (by decide) hLI hLS
    · intro x hx hx'
      have ha := hLA x hx'
      rcases List.mem_append.mp hx with hm | hm
      · exact absurd ((hLI x hm).symm.trans ha) (by decide)
      · exact absurd ((hLS x hm).symm.trans ha) (by decide)
    · intro x hx hx'
      have he := hLE x hx'
      rcases List.mem_append.mp hx with hm | hm
      · rcases List.mem_append.mp hm with hm' | hm'
        · exact absurd ((hLI x hm').symm.trans he) (by decide)
        · exact absurd ((hLS x hm').symm.trans he) (by decide)
      · exact absurd ((hLA x hm).symm.trans he) (by decide)

/-- The fetch results used to witness C5: one entry of each family. -/
def oneOfEachFamily : ClientData :=
  ⟨none, none,
    [⟨some "wan1", some "up", none, none, none, none, none⟩],
    [⟨some "A", none, none, none, none, none, none⟩],
    [⟨some "B", none, none, none, none, none, none, none⟩],
    [⟨some "aa:bb", none, none, none, none, none, none⟩]⟩

/-- C5 witness at the concrete fetch results of `oneOfEachFamily`. -/
theorem device_ids_unique_of_family_unique_witness :
    (((interfaceDevices oneOfEachFamily.interfac_list).map (fun d => d.id)).Nodup ∧
     ((switchDevices oneOfEachFamily.switches).map (fun d => d.id)).Nodup ∧
     ((apDevices oneOfEachFamily.access_points).map (fun d => d.id)).Nodup ∧
     ((endpointDevices oneOfEachFamily.user_devices).map (fun d => d.id)).Nodup) ∧
    ((build_topology "h" "t" oneOfEachFamily).devices.map (fun d => d.id)).Nodup :=
  ⟨⟨by decide, by decide, by decide, by decide⟩,
   device_ids_unique_of_family_unique "h" "t" oneOfEachFamily
     (by decide) (by decide) (by decide) (by decide)⟩
